import Mathlib

/-!
# Provisioning helper for unowned clusters

A shallow embedding of `integration/utilities/unowned/cluster.go`.

The helper drives a cloud provider through request/response calls.  The
embedding keeps a log of the requests issued so far (oldest first) and lets the
provider answer every request as a function of that log and of the request, so
that any deterministic provider behaviour is covered by quantifying over the
provider.  A run of a function returns its outcome together with the extended
log; an aborted run (a failed assertion or a runtime panic) keeps the log it
had reached.
-/

namespace Unowned

/-! ## Go values used by the helper -/

/-- Go `time.Duration`, counted in nanoseconds. -/
abbrev Duration := Nat

/-- Go `time.Second`. -/
def Second : Duration := 1000000000

/-- Go `time.Minute`. -/
def Minute : Duration := 60 * Second

/-- An error value returned by a provider call, by `eks.New` or by the file
system. -/
structure Error where
  Message : String
deriving DecidableEq, Repr

/-- The ways a run of the helper is aborted.  A failed gomega assertion calls
the fail handler, which panics; a Go runtime error panics as well. -/
inductive Failure where
  /-- The assertion `Expect(err).NotTo(HaveOccurred())` met the non-nil error `err`. -/
  | unexpectedError (err : Error)
  /-- The wait `Eventually(...).Should(Equal(want))` reached its deadline; `last`
  is the status seen by the last check. -/
  | timedOut (last : String)
  /-- Go runtime panic: index out of range `[index]` with length `length`. -/
  | indexOutOfRange (index length : Nat)
  /-- Go runtime panic: nil pointer dereference. -/
  | nilDereference
deriving DecidableEq, Repr

/-- Go `strings.Split(s, sep)` on the characters of `s`, for a separator of one
character: the pieces between the separators, in order; a string without
separator gives the one piece `s`. -/
def splitOnChar (sep : Char) : List Char → List (List Char)
  | [] => [[]]
  | c :: cs =>
    if c = sep then [] :: splitOnChar sep cs
    else
      match splitOnChar sep cs with
      | [] => [[c]]
      | piece :: pieces => (c :: piece) :: pieces

/-- Go `strings.Split(s, sep)` of the standard library, for the one-byte
separators the helper uses (`","`).  A one-byte separator never occurs inside a
multi-byte UTF-8 sequence, so splitting characters and splitting bytes agree. -/
def Split (s : String) (sep : Char) : List String :=
  (splitOnChar sep s.data).map String.mk

/-- Go `strings.Join(elems, sep)` of the standard library. -/
def Join (elems : List String) (sep : String) : String :=
  sep.intercalate elems

/-! ## Provider request and response types (aws-sdk-go)

Pointer-typed response fields that the helper dereferences are `Option`s, `nil`
being `none`.  Request fields are always filled from addresses of variables and
are plain values. -/

namespace cfn

/-- Constant `cfn.CapabilityCapabilityIam`. -/
def CapabilityCapabilityIam : String := "CAPABILITY_IAM"

/-- Constant `cfn.CapabilityCapabilityNamedIam`. -/
def CapabilityCapabilityNamedIam : String := "CAPABILITY_NAMED_IAM"

/-- Constant `cfn.StackStatusCreateComplete`. -/
def StackStatusCreateComplete : String := "CREATE_COMPLETE"

/-- Type `cfn.CreateStackInput`, with the fields the helper sets. -/
structure CreateStackInput where
  StackName : String
  TemplateBody : Option String := none
  Capabilities : List String := []
deriving DecidableEq, Repr

/-- Generated setter `SetTemplateBody`: assigns the field. -/
def CreateStackInput.SetTemplateBody (s : CreateStackInput) (v : String) :
    CreateStackInput :=
  { s with TemplateBody := some v }

/-- Generated setter `SetCapabilities`: assigns the field (`s.Capabilities = v`),
replacing what was stored before. -/
def CreateStackInput.SetCapabilities (s : CreateStackInput) (v : List String) :
    CreateStackInput :=
  { s with Capabilities := v }

structure DescribeStacksInput where
  StackName : String
deriving DecidableEq, Repr

structure DeleteStackInput where
  StackName : String
deriving DecidableEq, Repr

/-- Type `cfn.Output`: both fields are `*string`. -/
structure Output where
  OutputKey : Option String
  OutputValue : Option String
deriving DecidableEq, Repr

/-- Type `cfn.Stack`, with the fields the helper reads. -/
structure Stack where
  StackStatus : Option String
  Outputs : List Output
deriving DecidableEq, Repr

structure DescribeStacksOutput where
  Stacks : List Stack
deriving DecidableEq, Repr

end cfn

namespace awseks

structure VpcConfigRequest where
  SubnetIds : List String
deriving DecidableEq, Repr

structure CreateClusterInput where
  Name : String
  ResourcesVpcConfig : VpcConfigRequest
  RoleArn : String
  Version : String
deriving DecidableEq, Repr

structure DescribeClusterInput where
  Name : String
deriving DecidableEq, Repr

/-- Type `awseks.Cluster`, with the field the helper reads. -/
structure Cluster where
  Status : Option String
deriving DecidableEq, Repr

structure DescribeClusterOutput where
  Cluster : Option Cluster
deriving DecidableEq, Repr

structure NodegroupScalingConfig where
  MaxSize : Int
  DesiredSize : Int
  MinSize : Int
deriving DecidableEq, Repr

structure CreateNodegroupInput where
  NodegroupName : String
  ClusterName : String
  NodeRole : String
  Subnets : List String
  ScalingConfig : NodegroupScalingConfig
deriving DecidableEq, Repr

structure DescribeNodegroupInput where
  ClusterName : String
  NodegroupName : String
deriving DecidableEq, Repr

/-- Type `awseks.Nodegroup`, with the field the helper reads. -/
structure Nodegroup where
  Status : Option String
deriving DecidableEq, Repr

structure DescribeNodegroupOutput where
  Nodegroup : Option Nodegroup
deriving DecidableEq, Repr

end awseks

/-- A request sent to the provider, as recorded in the log. -/
inductive Request where
  | CreateStack (input : cfn.CreateStackInput)
  | DescribeStacks (input : cfn.DescribeStacksInput)
  | DeleteStack (input : cfn.DeleteStackInput)
  | CreateCluster (input : awseks.CreateClusterInput)
  | DescribeCluster (input : awseks.DescribeClusterInput)
  | CreateNodegroup (input : awseks.CreateNodegroupInput)
  | DescribeNodegroup (input : awseks.DescribeNodegroupInput)
deriving DecidableEq, Repr

/-- The request is a describe (status polling) request of a worker group. -/
def Request.isDescribeNodegroup : Request → Bool
  | .DescribeNodegroup _ => true
  | _ => false

namespace api

/-- The stack operations the helper uses of `ctl.CloudFormation()`.  The first
argument is the log of the requests issued before this one. -/
structure CloudFormationAPI where
  CreateStack : List Request → cfn.CreateStackInput → Except Error Unit
  DescribeStacks :
    List Request → cfn.DescribeStacksInput → Except Error cfn.DescribeStacksOutput
  DeleteStack : List Request → cfn.DeleteStackInput → Except Error Unit

/-- The cluster operations the helper uses of `ctl.EKS()`. -/
structure EKSAPI where
  CreateCluster : List Request → awseks.CreateClusterInput → Except Error Unit
  DescribeCluster :
    List Request → awseks.DescribeClusterInput →
      Except Error awseks.DescribeClusterOutput
  CreateNodegroup : List Request → awseks.CreateNodegroupInput → Except Error Unit
  DescribeNodegroup :
    List Request → awseks.DescribeNodegroupInput →
      Except Error awseks.DescribeNodegroupOutput

/-- Type `api.ClusterProvider`, the provider handle. -/
structure ClusterProvider where
  CloudFormation : CloudFormationAPI
  EKS : EKSAPI

/-- Type `api.ClusterMeta`, with the fields the helper reads. -/
structure ClusterMeta where
  Name : String
  Region : String
  Version : String
deriving DecidableEq, Repr

/-- Type `api.ClusterConfig`. -/
structure ClusterConfig where
  Metadata : ClusterMeta
deriving DecidableEq, Repr

/-- Type `api.ProviderConfig`. -/
structure ProviderConfig where
  Region : String
deriving DecidableEq, Repr

end api

namespace eks

/-- Type `eks.ClusterProvider`, the result of `eks.New`. -/
structure ClusterProvider where
  Provider : api.ClusterProvider

end eks

/-- What the helper reaches besides the provider handle: the constructor of the
provider, the file system, and the clock.  `polls log timeout interval` is the
number of further checks, after the immediate first one, that a wait started at
`log` with this deadline and this interval can make before the deadline; it
depends on how long the provider takes to answer and is left to the
environment. -/
structure Env where
  New : api.ProviderConfig → api.ClusterConfig → Except Error eks.ClusterProvider
  ReadFile : String → Except Error String
  polls : List Request → Duration → Duration → Nat

/-! ## gomega -/

/-- Modelled from the spec: gomega's `Expect(err).NotTo(HaveOccurred())` is not
in the source tree.  A request error is not retried and is surfaced at once
(section 7): a non-nil error aborts the run with that error, no error lets the
run go on with the result of the call. -/
def Expect {α : Type} (r : Except Error α) : Except Failure α :=
  match r with
  | .ok a => .ok a
  | .error err => .error (Failure.unexpectedError err)

/-- Modelled from the spec: gomega's `Eventually(check, timeout,
interval).Should(Equal(want))` is not in the source tree.  Section 4.1: the
check is invoked immediately, then on the fixed interval, until the value it
returns equals `want`; when the deadline passes before a match the wait fails
with a timeout carrying the last status seen; when the check itself fails, that
failure is propagated at once, without another check.  `retries` is the number
of further checks that fit before the deadline. -/
def Eventually {σ : Type} (check : σ → Except Failure String × σ) :
    Nat → String → σ → Except Failure Unit × σ
  | 0, want, s =>
    match check s with
    | (.error f, s1) => (.error f, s1)
    | (.ok status, s1) =>
      if status = want then (.ok (), s1) else (.error (Failure.timedOut status), s1)
  | retries + 1, want, s =>
    match check s with
    | (.error f, s1) => (.error f, s1)
    | (.ok status, s1) =>
      if status = want then (.ok (), s1) else Eventually check retries want s1

/-! ## The helper -/

/-- The handle `Cluster`. -/
structure Cluster where
  Cfg : api.ClusterConfig
  Ctl : api.ClusterProvider
  ClusterName : String
  ClusterStackName : String
  PublicSubnets : List String
  PrivateSubnets : List String
  ClusterRoleARN : String
  NodeRoleARN : String

/-- Package variable `timeoutDuration`. -/
def timeoutDuration : Duration := Minute * 30

/-- Method `DeleteStack` (pointer receiver): the outcome, the handle after the
call, and the log. -/
def DeleteStack (uc : Cluster) (log : List Request) :
    Except Failure Unit × Cluster × List Request :=
  let deleteStackInput : cfn.DeleteStackInput := { StackName := uc.ClusterStackName }
  let log1 := log ++ [Request.DeleteStack deleteStackInput]
  match Expect (uc.Ctl.CloudFormation.DeleteStack log deleteStackInput) with
  | .error f => (.error f, uc, log1)
  | .ok _ => (.ok (), uc, log1)

/-- The request built by `createCluster`. -/
def createCluster.input (uc : Cluster) : awseks.CreateClusterInput :=
  { Name := uc.ClusterName
    ResourcesVpcConfig := { SubnetIds := uc.PublicSubnets ++ uc.PrivateSubnets }
    RoleArn := uc.ClusterRoleARN
    Version := uc.Cfg.Metadata.Version }

/-- The function polled by `createCluster`: one describe request, the status
of the cluster it returns. -/
def createCluster.check (uc : Cluster) (log : List Request) :
    Except Failure String × List Request :=
  let input : awseks.DescribeClusterInput := { Name := uc.ClusterName }
  let log1 := log ++ [Request.DescribeCluster input]
  match Expect (uc.Ctl.EKS.DescribeCluster log input) with
  | .error f => (.error f, log1)
  | .ok out =>
    match out.Cluster with
    | none => (.error Failure.nilDereference, log1)
    | some cluster =>
      match cluster.Status with
      | none => (.error Failure.nilDereference, log1)
      | some status => (.ok status, log1)

/-- Method `createCluster` (pointer receiver): the outcome, the handle after
the call, and the log. -/
def createCluster (env : Env) (uc : Cluster) (log : List Request) :
    Except Failure Unit × Cluster × List Request :=
  let input := createCluster.input uc
  let log1 := log ++ [Request.CreateCluster input]
  match Expect (uc.Ctl.EKS.CreateCluster log input) with
  | .error f => (.error f, uc, log1)
  | .ok _ =>
    match Eventually (createCluster.check uc)
        (env.polls log1 timeoutDuration (Second * 30)) "ACTIVE" log1 with
    | (.error f, log2) => (.error f, uc, log2)
    | (.ok _, log2) => (.ok (), uc, log2)

/-- The request built in the first loop of `CreateNodegroups` for `name`. -/
def CreateNodegroups.input (uc : Cluster) (name : String) :
    awseks.CreateNodegroupInput :=
  { NodegroupName := name
    ClusterName := uc.ClusterName
    NodeRole := uc.NodeRoleARN
    Subnets := uc.PublicSubnets
    ScalingConfig := { MaxSize := 1, DesiredSize := 1, MinSize := 1 } }

/-- First loop of `CreateNodegroups`: one create request per name. -/
def CreateNodegroups.create (uc : Cluster) :
    List String → List Request → Except Failure Unit × List Request
  | [], log => (.ok (), log)
  | name :: names, log =>
    let input := CreateNodegroups.input uc name
    let log1 := log ++ [Request.CreateNodegroup input]
    match Expect (uc.Ctl.EKS.CreateNodegroup log input) with
    | .error f => (.error f, log1)
    | .ok _ => CreateNodegroups.create uc names log1

/-- The describe request of the second loop of `CreateNodegroups` for `name`. -/
def CreateNodegroups.describeInput (uc : Cluster) (name : String) :
    awseks.DescribeNodegroupInput :=
  { ClusterName := uc.ClusterName, NodegroupName := name }

/-- The function polled in the second loop of `CreateNodegroups`. -/
def CreateNodegroups.check (uc : Cluster) (name : String) (log : List Request) :
    Except Failure String × List Request :=
  let input := CreateNodegroups.describeInput uc name
  let log1 := log ++ [Request.DescribeNodegroup input]
  match Expect (uc.Ctl.EKS.DescribeNodegroup log input) with
  | .error f => (.error f, log1)
  | .ok out =>
    match out.Nodegroup with
    | none => (.error Failure.nilDereference, log1)
    | some nodegroup =>
      match nodegroup.Status with
      | none => (.error Failure.nilDereference, log1)
      | some status => (.ok status, log1)

/-- Second loop of `CreateNodegroups`: wait for each group in turn. -/
def CreateNodegroups.await (env : Env) (uc : Cluster) :
    List String → List Request → Except Failure Unit × List Request
  | [], log => (.ok (), log)
  | name :: names, log =>
    match Eventually (CreateNodegroups.check uc name)
        (env.polls log timeoutDuration (Second * 30)) "ACTIVE" log with
    | (.error f, log1) => (.error f, log1)
    | (.ok _, log1) => CreateNodegroups.await env uc names log1

/-- Method `CreateNodegroups` (value receiver). -/
def CreateNodegroups (env : Env) (uc : Cluster) (names : List String)
    (log : List Request) : Except Failure Unit × List Request :=
  match CreateNodegroups.create uc names log with
  | (.error f, log1) => (.error f, log1)
  | (.ok _, log1) => CreateNodegroups.await env uc names log1

/-- The request built by `createVPCAndRole`. -/
def createVPCAndRole.input (stackName templateBody : String) : cfn.CreateStackInput :=
  let createStackInput : cfn.CreateStackInput := { StackName := stackName }
  let createStackInput := createStackInput.SetTemplateBody templateBody
  let createStackInput :=
    createStackInput.SetCapabilities [cfn.CapabilityCapabilityIam]
  let createStackInput :=
    createStackInput.SetCapabilities [cfn.CapabilityCapabilityNamedIam]
  createStackInput

/-- The function polled by `createVPCAndRole`.  Its state is the captured
variable `describeStackOut` and the log. -/
def createVPCAndRole.check (stackName : String) (ctl : api.ClusterProvider) :
    Option cfn.DescribeStacksOutput × List Request →
      Except Failure String × (Option cfn.DescribeStacksOutput × List Request)
  | (_, log) =>
    let input : cfn.DescribeStacksInput := { StackName := stackName }
    let log1 := log ++ [Request.DescribeStacks input]
    match Expect (ctl.CloudFormation.DescribeStacks log input) with
    | .error f => (.error f, (none, log1))
    | .ok describeStackOut =>
      match describeStackOut.Stacks with
      | [] => (.error (Failure.indexOutOfRange 0 0), (some describeStackOut, log1))
      | stack :: _ =>
        match stack.StackStatus with
        | none => (.error Failure.nilDereference, (some describeStackOut, log1))
        | some status => (.ok status, (some describeStackOut, log1))

/-- The four result variables of `createVPCAndRole`. -/
structure createVPCAndRole.Vars where
  publicSubnets : List String := []
  privateSubnets : List String := []
  clusterRoleARN : String := ""
  nodeRoleARN : String := ""
deriving DecidableEq, Repr

/-- Body of the loop over the outputs in `createVPCAndRole`: the switch on the
key. -/
def createVPCAndRole.body (vars : createVPCAndRole.Vars) (output : cfn.Output) :
    Except Failure createVPCAndRole.Vars :=
  match output.OutputKey with
  | none => .error Failure.nilDereference
  | some key =>
    if key = "ClusterRoleARN" then
      match output.OutputValue with
      | none => .error Failure.nilDereference
      | some value => .ok { vars with clusterRoleARN := value }
    else if key = "NodeRoleARN" then
      match output.OutputValue with
      | none => .error Failure.nilDereference
      | some value => .ok { vars with nodeRoleARN := value }
    else if key = "PublicSubnetIds" then
      match output.OutputValue with
      | none => .error Failure.nilDereference
      | some value => .ok { vars with publicSubnets := Split value ',' }
    else if key = "PrivateSubnetIds" then
      match output.OutputValue with
      | none => .error Failure.nilDereference
      | some value => .ok { vars with privateSubnets := Split value ',' }
    else .ok vars

/-- The loop over the outputs in `createVPCAndRole`. -/
def createVPCAndRole.loop :
    createVPCAndRole.Vars → List cfn.Output → Except Failure createVPCAndRole.Vars
  | vars, [] => .ok vars
  | vars, output :: outputs =>
    match createVPCAndRole.body vars output with
    | .error f => .error f
    | .ok vars1 => createVPCAndRole.loop vars1 outputs

/-- The end of `createVPCAndRole`, after the wait: the outputs of the first
stack of the last describe response are read into the four results. -/
def createVPCAndRole.extract (describeStackOut : Option cfn.DescribeStacksOutput) :
    Except Failure (List String × List String × String × String) :=
  match describeStackOut with
  | none => .error Failure.nilDereference
  | some out =>
    match out.Stacks with
    | [] => .error (Failure.indexOutOfRange 0 0)
    | stack :: _ =>
      match createVPCAndRole.loop {} stack.Outputs with
      | .error f => .error f
      | .ok vars =>
        .ok (vars.publicSubnets, vars.privateSubnets, vars.clusterRoleARN,
          vars.nodeRoleARN)

/-- Function `createVPCAndRole`. -/
def createVPCAndRole (env : Env) (stackName : String) (ctl : api.ClusterProvider)
    (log : List Request) :
    Except Failure (List String × List String × String × String) × List Request :=
  match Expect (env.ReadFile "../../utilities/unowned/cf-template.yaml") with
  | .error f => (.error f, log)
  | .ok templateBody =>
    let createStackInput := createVPCAndRole.input stackName templateBody
    let log1 := log ++ [Request.CreateStack createStackInput]
    match Expect (ctl.CloudFormation.CreateStack log createStackInput) with
    | .error f => (.error f, log1)
    | .ok _ =>
      match Eventually (createVPCAndRole.check stackName ctl)
          (env.polls log1 (Minute * 10) (Second * 15)) cfn.StackStatusCreateComplete
          (none, log1) with
      | (.error f, (_, log2)) => (.error f, log2)
      | (.ok _, (describeStackOut, log2)) =>
        (createVPCAndRole.extract describeStackOut, log2)

/-- Function `NewCluster`. -/
def NewCluster (env : Env) (cfg : api.ClusterConfig) (log : List Request) :
    Except Failure Cluster × List Request :=
  let stackName := "eksctl-" ++ cfg.Metadata.Name
  match Expect (env.New { Region := cfg.Metadata.Region } cfg) with
  | .error f => (.error f, log)
  | .ok clusterProvider =>
    let ctl := clusterProvider.Provider
    match createVPCAndRole env stackName ctl log with
    | (.error f, log1) => (.error f, log1)
    | (.ok (publicSubnets, privateSubnets, clusterRoleARN, nodeRoleARN), log1) =>
      let uc : Cluster :=
        { Cfg := cfg
          Ctl := ctl
          ClusterStackName := stackName
          ClusterName := cfg.Metadata.Name
          PublicSubnets := publicSubnets
          PrivateSubnets := privateSubnets
          ClusterRoleARN := clusterRoleARN
          NodeRoleARN := nodeRoleARN }
      match createCluster env uc log1 with
      | (.error f, _, log2) => (.error f, log2)
      | (.ok _, uc1, log2) => (.ok uc1, log2)

/-! ## Auxiliary definitions for the statements -/

/-- The pieces of a split glued back: the separator goes in front of every
piece but the first. -/
def glue (sep : Char) : List (List Char) → List Char
  | [] => []
  | piece :: pieces => piece ++ (pieces.map (fun p => sep :: p)).flatten

/-- The state reached after the first `k` invocations of `check`, starting in
`s`. -/
def stateAfter {σ : Type} (check : σ → Except Failure String × σ) : Nat → σ → σ
  | 0, s => s
  | k + 1, s => stateAfter check k (check s).2

/-- The function `check` with a counter of its invocations next to its state. -/
def counted {σ : Type} (check : σ → Except Failure String × σ) :
    σ × Nat → Except Failure String × (σ × Nat)
  | (s, n) => ((check s).1, ((check s).2, n + 1))

/-- The describe requests of a polling phase that makes `counts[j]` checks of
the group `names[j]`, one group after the other. -/
def CreateNodegroups.describes (uc : Cluster) : List String → List Nat → List Request
  | name :: names, count :: counts =>
    List.replicate count
        (Request.DescribeNodegroup (CreateNodegroups.describeInput uc name))
      ++ CreateNodegroups.describes uc names counts
  | _, _ => []

/-! ## Sample inputs -/

/-- A check that reports "CREATING" on its first two invocations and "ACTIVE"
from the third on; its state is the number of invocations made. -/
def Sample.thirdTime (calls : Nat) : Except Failure String × Nat :=
  (.ok (if calls < 2 then "CREATING" else "ACTIVE"), calls + 1)

/-- The outputs of the sample stack: the four recognised keys and, between them,
two outputs the helper does not know, one of them without a value. -/
def Sample.outputs : List cfn.Output :=
  [ { OutputKey := some "VpcId", OutputValue := some "vpc-1" },
    { OutputKey := some "PublicSubnetIds", OutputValue := some "a,b,c" },
    { OutputKey := some "NodeRoleARN", OutputValue := some "r2" },
    { OutputKey := some "PrivateSubnetIds", OutputValue := some "d,e" },
    { OutputKey := some "Comment", OutputValue := none },
    { OutputKey := some "ClusterRoleARN", OutputValue := some "r1" } ]

/-- A provider that accepts every request and reports every resource ready at
the first check, except that it rejects the creation of the worker group
"ng-2". -/
def Sample.provider : api.ClusterProvider :=
  { CloudFormation :=
      { CreateStack := fun _ _ => .ok ()
        DescribeStacks := fun _ _ =>
          .ok { Stacks := [{ StackStatus := some "CREATE_COMPLETE",
                             Outputs := Sample.outputs }] }
        DeleteStack := fun _ _ => .ok () }
    EKS :=
      { CreateCluster := fun _ _ => .ok ()
        DescribeCluster := fun _ _ => .ok { Cluster := some { Status := some "ACTIVE" } }
        CreateNodegroup := fun _ input =>
          if input.NodegroupName = "ng-2" then .error { Message := "ResourceInUse" }
          else .ok ()
        DescribeNodegroup := fun _ _ =>
          .ok { Nodegroup := some { Status := some "ACTIVE" } } } }

/-- A provider like the sample provider whose describe-stacks call succeeds
with an empty list of stacks. -/
def Sample.emptyProvider : api.ClusterProvider :=
  { Sample.provider with
    CloudFormation :=
      { Sample.provider.CloudFormation with
        DescribeStacks := fun _ _ => .ok { Stacks := [] } } }

/-- An environment with the given provider, a readable template, and a clock on
which only the waiting between two checks takes time. -/
def Sample.env (ctl : api.ClusterProvider) : Env :=
  { New := fun _ _ => .ok { Provider := ctl }
    ReadFile := fun _ => .ok "Resources: ..."
    polls := fun _ timeout interval => timeout / interval }

/-- The sample configuration. -/
def Sample.cfg : api.ClusterConfig :=
  { Metadata := { Name := "test", Region := "us-west-2", Version := "1.21" } }

/-- The handle that `NewCluster` builds from the sample configuration with the
sample provider. -/
def Sample.cluster : Cluster :=
  { Cfg := Sample.cfg
    Ctl := Sample.provider
    ClusterName := "test"
    ClusterStackName := "eksctl-test"
    PublicSubnets := ["a", "b", "c"]
    PrivateSubnets := ["d", "e"]
    ClusterRoleARN := "r1"
    NodeRoleARN := "r2" }

/-! ## Splitting and joining -/

theorem splitOnChar_ne_nil (sep : Char) (s : List Char) : splitOnChar sep s ≠ [] := by
  induction s with
  | nil => simp [splitOnChar]
  | cons c cs ih =>
    rw [splitOnChar]
    split_ifs
    · simp
    · split <;> simp

theorem splitOnChar_no_sep (sep : Char) (s : List Char) :
    ∀ piece ∈ splitOnChar sep s, sep ∉ piece := by
  induction s with
  | nil => simp [splitOnChar]
  | cons c cs ih =>
    rw [splitOnChar]
    split_ifs with hc
    · intro piece hp
      rcases List.mem_cons.1 hp with h | h
      · simp [h]
      · exact ih piece h
    · split
      · intro piece hp
        simp only [List.mem_singleton] at hp
        subst hp
        simp [Ne.symm hc]
      · rename_i p ps heq
        rw [heq] at ih
        intro piece hp
        rcases List.mem_cons.1 hp with h | h
        · subst h
          have := ih p (by simp)
          simp [Ne.symm hc, this]
        · exact ih piece (by simp [h])

theorem glue_splitOnChar (sep : Char) (s : List Char) :
    glue sep (splitOnChar sep s) = s := by
  induction s with
  | nil => simp [splitOnChar, glue]
  | cons c cs ih =>
    rw [splitOnChar]
    split_ifs with hc
    · have hne := splitOnChar_ne_nil sep cs
      cases hsp : splitOnChar sep cs with
      | nil => exact absurd hsp hne
      | cons p ps =>
        rw [hsp] at ih
        simp only [glue] at ih ⊢
        simp [hc, ih]
    · split
      · rename_i heq
        exact absurd heq (splitOnChar_ne_nil sep cs)
      · rename_i p ps heq
        rw [heq] at ih
        simp only [glue] at ih ⊢
        simp [ih]

theorem intercalate_go_data (sep : String) (l : List String) (acc : String) :
    (String.intercalate.go acc sep l).data
      = acc.data ++ (l.map (fun x => sep.data ++ x.data)).flatten := by
  induction l generalizing acc with
  | nil => simp [String.intercalate.go]
  | cons a as ih => simp [String.intercalate.go, ih]

theorem Join_data (c : Char) (l : List String) :
    (Join l (String.singleton c)).data = glue c (l.map String.data) := by
  cases l with
  | nil => simp [Join, String.intercalate, glue]
  | cons a as =>
    simp [Join, String.intercalate, glue, intercalate_go_data, String.singleton,
      List.map_map, Function.comp_def]

theorem Join_Split (v : String) (c : Char) :
    Join (Split v c) (String.singleton c) = v := by
  apply String.ext
  rw [Join_data, Split, List.map_map]
  have : (String.data ∘ String.mk) = id := by funext x; rfl
  rw [this, List.map_id, glue_splitOnChar]

theorem Split_ne_nil (v : String) (c : Char) : Split v c ≠ [] := by
  simp [Split, splitOnChar_ne_nil]

theorem Split_no_sep (v : String) (c : Char) : ∀ x ∈ Split v c, c ∉ x.data := by
  intro x hx
  simp only [Split, List.mem_map] at hx
  obtain ⟨p, hp, rfl⟩ := hx
  exact splitOnChar_no_sep c v.data p hp

/-! ## The bounded wait -/

theorem stateAfter_succ {σ : Type} (check : σ → Except Failure String × σ)
    (k : Nat) (s : σ) :
    stateAfter check (k + 1) s = (check (stateAfter check k s)).2 := by
  induction k generalizing s with
  | zero => rfl
  | succ k ih =>
    show stateAfter check (k + 1) (check s).2 = _
    rw [ih]
    rfl

/-- A wait whose check misses `n` times and then hits succeeds in the state
reached by `n + 1` checks. -/
theorem Eventually_hit {σ : Type} (check : σ → Except Failure String × σ)
    (want : String) (n : Nat) :
    ∀ (retries : Nat) (s : σ), n ≤ retries →
      (∀ k, k < n → ∃ st, (check (stateAfter check k s)).1 = .ok st ∧ st ≠ want) →
      (check (stateAfter check n s)).1 = .ok want →
      Eventually check retries want s = (.ok (), stateAfter check (n + 1) s) := by
  induction n with
  | zero =>
    intro retries s _ _ hhit
    simp only [stateAfter] at hhit
    cases retries with
    | zero =>
      cases hc : check s with
      | mk r s1 =>
        rw [hc] at hhit
        simp only at hhit
        subst hhit
        simp [Eventually, hc, stateAfter]
    | succ m =>
      cases hc : check s with
      | mk r s1 =>
        rw [hc] at hhit
        simp only at hhit
        subst hhit
        simp [Eventually, hc, stateAfter]
  | succ n ih =>
    intro retries s hle hmiss hhit
    cases retries with
    | zero => omega
    | succ m =>
      obtain ⟨st, hst, hne⟩ := hmiss 0 (by omega)
      simp only [stateAfter] at hst
      cases hc : check s with
      | mk r s1 =>
        rw [hc] at hst
        simp only at hst
        subst hst
        have hs1 : s1 = (check s).2 := by rw [hc]
        have := ih m s1 (by omega)
          (fun k hk => by
            have := hmiss (k + 1) (by omega)
            simpa [stateAfter, hs1] using this)
          (by simpa [stateAfter, hs1] using hhit)
        simp only [Eventually, hc, hne, if_false]
        rw [this]
        simp [stateAfter, hs1]

/-- Every wait stops after some number `n + 1` of checks, `n` at most the number
of retries: the first `n` checks miss, and the outcome is read off the last
check. -/
theorem Eventually_trace {σ : Type} (check : σ → Except Failure String × σ)
    (want : String) :
    ∀ (retries : Nat) (s : σ), ∃ n, n ≤ retries ∧
      (∀ k, k < n → ∃ st, (check (stateAfter check k s)).1 = .ok st ∧ st ≠ want) ∧
      (Eventually check retries want s).2 = stateAfter check (n + 1) s ∧
      (Eventually check retries want s).1
        = (match (check (stateAfter check n s)).1 with
            | .error f => .error f
            | .ok st => if st = want then .ok () else .error (Failure.timedOut st)) := by
  intro retries
  induction retries with
  | zero =>
    intro s
    refine ⟨0, le_refl _, fun k hk => absurd hk (Nat.not_lt_zero k), ?_, ?_⟩
    · cases hc : check s with
      | mk r s1 =>
        cases r with
        | error f => simp [Eventually, hc, stateAfter]
        | ok st => by_cases h : st = want <;> simp [Eventually, hc, stateAfter, h]
    · cases hc : check s with
      | mk r s1 =>
        cases r with
        | error f => simp [Eventually, hc, stateAfter]
        | ok st => by_cases h : st = want <;> simp [Eventually, hc, stateAfter, h]
  | succ m ih =>
    intro s
    cases hc : check s with
    | mk r s1 =>
      have hs1 : s1 = (check s).2 := by rw [hc]
      cases r with
      | error f =>
        exact ⟨0, Nat.zero_le _, fun k hk => absurd hk (Nat.not_lt_zero k),
          by simp [Eventually, hc, stateAfter], by simp [Eventually, hc, stateAfter]⟩
      | ok st =>
        by_cases h : st = want
        · exact ⟨0, Nat.zero_le _, fun k hk => absurd hk (Nat.not_lt_zero k),
            by simp [Eventually, hc, stateAfter, h],
            by simp [Eventually, hc, stateAfter, h]⟩
        · obtain ⟨n, hn, hmiss, hstate, hres⟩ := ih s1
          refine ⟨n + 1, by omega, ?_, ?_, ?_⟩
          · intro k hk
            cases k with
            | zero => exact ⟨st, by simp [stateAfter, hc], h⟩
            | succ k =>
              have := hmiss k (by omega)
              simpa [stateAfter, hs1] using this
          · simp only [Eventually, hc, h, if_false]
            rw [hstate]
            simp [stateAfter, hs1]
          · simp only [Eventually, hc, h, if_false]
            rw [hres]
            simp [stateAfter, hs1]

theorem stateAfter_counted {σ : Type} (check : σ → Except Failure String × σ)
    (k : Nat) : ∀ (s : σ) (c : Nat),
    stateAfter (counted check) k (s, c) = (stateAfter check k s, c + k) := by
  induction k with
  | zero => intro s c; rfl
  | succ k ih =>
    intro s c
    show stateAfter (counted check) k (counted check (s, c)).2 = _
    simp only [counted]
    rw [ih]
    simp [stateAfter]
    omega

/-! ## Reading the stack outputs -/

theorem loop_fold (outputs : List cfn.Output) :
    ∀ vars : createVPCAndRole.Vars,
    (∀ o ∈ outputs, ∃ k, o.OutputKey = some k ∧
      ((k = "ClusterRoleARN" ∨ k = "NodeRoleARN" ∨ k = "PublicSubnetIds"
          ∨ k = "PrivateSubnetIds") → ∃ v, o.OutputValue = some v)) →
    createVPCAndRole.loop vars outputs = .ok
      { publicSubnets :=
          (outputs.filter (fun o => o.OutputKey = some "PublicSubnetIds")).foldl
            (fun _ o => Split (o.OutputValue.getD "") ',') vars.publicSubnets
        privateSubnets :=
          (outputs.filter (fun o => o.OutputKey = some "PrivateSubnetIds")).foldl
            (fun _ o => Split (o.OutputValue.getD "") ',') vars.privateSubnets
        clusterRoleARN :=
          (outputs.filter (fun o => o.OutputKey = some "ClusterRoleARN")).foldl
            (fun _ o => o.OutputValue.getD "") vars.clusterRoleARN
        nodeRoleARN :=
          (outputs.filter (fun o => o.OutputKey = some "NodeRoleARN")).foldl
            (fun _ o => o.OutputValue.getD "") vars.nodeRoleARN } := by
  induction outputs with
  | nil => intro vars _; simp [createVPCAndRole.loop]
  | cons o os ih =>
    intro vars h
    obtain ⟨k, hk, hv⟩ := h o (by simp)
    have hos := fun o1 (h1 : o1 ∈ os) => h o1 (by simp [h1])
    rw [createVPCAndRole.loop, createVPCAndRole.body, hk]
    simp only
    by_cases h1 : k = "ClusterRoleARN"
    · obtain ⟨v, hval⟩ := hv (Or.inl h1)
      subst h1
      simp only [if_true, hval]
      rw [ih _ hos]
      simp [List.filter_cons, hk, hval]
    · by_cases h2 : k = "NodeRoleARN"
      · obtain ⟨v, hval⟩ := hv (Or.inr (Or.inl h2))
        subst h2
        simp only [if_neg h1, if_true, hval]
        rw [ih _ hos]
        simp [List.filter_cons, hk, hval]
      · by_cases h3 : k = "PublicSubnetIds"
        · obtain ⟨v, hval⟩ := hv (Or.inr (Or.inr (Or.inl h3)))
          subst h3
          simp only [if_neg h1, if_neg h2, if_true, hval]
          rw [ih _ hos]
          simp [List.filter_cons, hk, hval]
        · by_cases h4 : k = "PrivateSubnetIds"
          · obtain ⟨v, hval⟩ := hv (Or.inr (Or.inr (Or.inr h4)))
            subst h4
            simp only [if_neg h1, if_neg h2, if_neg h3, if_true, hval]
            rw [ih _ hos]
            simp [List.filter_cons, hk, hval]
          · simp only [if_neg h1, if_neg h2, if_neg h3, if_neg h4]
            rw [ih _ hos]
            simp [List.filter_cons, hk, h1, h2, h3, h4]

theorem value_of_filter (outputs : List cfn.Output) (key v : String)
    (hf : outputs.filter (fun o => o.OutputKey = some key)
      = [{ OutputKey := some key, OutputValue := some v }]) :
    ∀ o ∈ outputs, o.OutputKey = some key → o.OutputValue = some v := by
  intro o ho hk
  have hmem : o ∈ outputs.filter (fun o => o.OutputKey = some key) := by
    simp [List.mem_filter, ho, hk]
  rw [hf] at hmem
  simp only [List.mem_singleton] at hmem
  rw [hmem]

/-- C1: when the outputs of the first stack carry each of the four recognised
keys exactly once, among any outputs under other keys, the extraction yields
the two subnet values split on the comma, in order, and the two role ARNs
verbatim. -/
theorem createVPCAndRole_extracts_outputs
    (status : Option String) (outputs : List cfn.Output) (others : List cfn.Stack)
    (pub priv clusterRole nodeRole : String)
    (hkeys : ∀ o ∈ outputs, o.OutputKey ≠ none)
    (hpub : outputs.filter (fun o => o.OutputKey = some "PublicSubnetIds")
      = [{ OutputKey := some "PublicSubnetIds", OutputValue := some pub }])
    (hpriv : outputs.filter (fun o => o.OutputKey = some "PrivateSubnetIds")
      = [{ OutputKey := some "PrivateSubnetIds", OutputValue := some priv }])
    (hcluster : outputs.filter (fun o => o.OutputKey = some "ClusterRoleARN")
      = [{ OutputKey := some "ClusterRoleARN", OutputValue := some clusterRole }])
    (hnode : outputs.filter (fun o => o.OutputKey = some "NodeRoleARN")
      = [{ OutputKey := some "NodeRoleARN", OutputValue := some nodeRole }]) :
    createVPCAndRole.extract
        (some { Stacks := { StackStatus := status, Outputs := outputs } :: others })
      = .ok (Split pub ',', Split priv ',', clusterRole, nodeRole) := by
  have hall : ∀ o ∈ outputs, ∃ k, o.OutputKey = some k ∧
      ((k = "ClusterRoleARN" ∨ k = "NodeRoleARN" ∨ k = "PublicSubnetIds"
          ∨ k = "PrivateSubnetIds") → ∃ v, o.OutputValue = some v) := by
    intro o ho
    cases hk : o.OutputKey with
    | none => exact absurd hk (hkeys o ho)
    | some k =>
      refine ⟨k, rfl, ?_⟩
      rintro (h | h | h | h) <;> subst h
      · exact ⟨_, value_of_filter outputs _ _ hcluster o ho hk⟩
      · exact ⟨_, value_of_filter outputs _ _ hnode o ho hk⟩
      · exact ⟨_, value_of_filter outputs _ _ hpub o ho hk⟩
      · exact ⟨_, value_of_filter outputs _ _ hpriv o ho hk⟩
  simp only [createVPCAndRole.extract]
  rw [loop_fold outputs _ hall, hpub, hpriv, hcluster, hnode]
  simp

/-- Witness of C1: the sample outputs give ["a","b","c"], ["d","e"], "r1", "r2";
the outputs "VpcId" and "Comment" are passed over. -/
theorem createVPCAndRole_extracts_outputs_witness :
    createVPCAndRole.extract
        (some { Stacks := [{ StackStatus := some "CREATE_COMPLETE",
                             Outputs := Sample.outputs }] })
      = .ok (["a", "b", "c"], ["d", "e"], "r1", "r2") :=
  createVPCAndRole_extracts_outputs (some "CREATE_COMPLETE") Sample.outputs []
    "a,b,c" "d,e" "r1" "r2" (by decide) (by decide) (by decide) (by decide) (by decide)

/-- C10: the list stored for a subnet key is the split of the value on the
comma; it is never empty, no element holds a comma, and joining the elements
with a comma gives the value back; the empty value gives the list of the empty
string. -/
theorem createVPCAndRole_split_roundtrip (vars : createVPCAndRole.Vars) (v : String) :
    createVPCAndRole.body vars { OutputKey := some "PublicSubnetIds", OutputValue := some v }
        = .ok { vars with publicSubnets := Split v ',' } ∧
    createVPCAndRole.body vars { OutputKey := some "PrivateSubnetIds", OutputValue := some v }
        = .ok { vars with privateSubnets := Split v ',' } ∧
    Split v ',' ≠ [] ∧
    (∀ x ∈ Split v ',', ',' ∉ x.data) ∧
    Join (Split v ',') "," = v ∧
    Split "" ',' = [""] := by
  refine ⟨?_, ?_, Split_ne_nil v ',', Split_no_sep v ',', Join_Split v ',', by decide⟩
  · simp [createVPCAndRole.body]
  · simp [createVPCAndRole.body]

/-! ## The number of checks of a wait -/

/-- C8: a wait whose check misses on its first `N - 1` invocations and hits on
the `N`-th, with `N` checks fitting before the deadline, succeeds after exactly
`N` invocations of the check. -/
theorem Eventually_exactly_N_checks {σ : Type}
    (check : σ → Except Failure String × σ) (want : String) (retries N : Nat) (s : σ)
    (hN : 1 ≤ N) (hfit : N ≤ retries + 1)
    (hmiss : ∀ k, k + 1 < N →
      ∃ st, (check (stateAfter check k s)).1 = .ok st ∧ st ≠ want)
    (hhit : (check (stateAfter check (N - 1) s)).1 = .ok want) :
    Eventually (counted check) retries want (s, 0)
        = (.ok (), (stateAfter check N s, N)) ∧
    Eventually check retries want s = (.ok (), stateAfter check N s) := by
  obtain ⟨n, rfl⟩ : ∃ n, N = n + 1 := ⟨N - 1, by omega⟩
  simp only [Nat.add_sub_cancel] at hhit
  constructor
  · have h := Eventually_hit (counted check) want n retries (s, 0) (by omega)
      (fun k hk => by
        rw [stateAfter_counted]
        simpa [counted] using hmiss k (by omega))
      (by rw [stateAfter_counted]; simpa [counted] using hhit)
    rw [h, stateAfter_counted]
    simp
  · exact Eventually_hit check want n retries s (by omega)
      (fun k hk => hmiss k (by omega)) hhit

/-- Witness of C8: a check that hits on its third invocation is invoked three
times. -/
theorem Eventually_exactly_N_checks_witness :
    Eventually (counted Sample.thirdTime) 60 "ACTIVE" (0, 0) = (.ok (), (3, 3)) ∧
    Eventually Sample.thirdTime 60 "ACTIVE" 0 = (.ok (), 3) :=
  Eventually_exactly_N_checks Sample.thirdTime "ACTIVE" 60 3 0 (by decide) (by decide)
    (fun k hk => by
      have hk2 : k = 0 ∨ k = 1 := by omega
      rcases hk2 with rfl | rfl
      · exact ⟨"CREATING", rfl, by decide⟩
      · exact ⟨"CREATING", rfl, by decide⟩)
    rfl

/-! ## The requests of each stage -/

theorem createCluster_check_log (uc : Cluster) (log : List Request) :
    (createCluster.check uc log).2
      = log ++ [Request.DescribeCluster { Name := uc.ClusterName }] := by
  unfold createCluster.check
  simp only
  split
  · rfl
  · split
    · rfl
    · split <;> rfl

theorem createCluster_stateAfter (uc : Cluster) (k : Nat) (log : List Request) :
    stateAfter (createCluster.check uc) k log
      = log ++ List.replicate k (Request.DescribeCluster { Name := uc.ClusterName }) := by
  induction k with
  | zero => simp [stateAfter]
  | succ k ih =>
    rw [stateAfter_succ, ih, createCluster_check_log, List.replicate_succ',
      List.append_assoc]

theorem CreateNodegroups_check_log (uc : Cluster) (name : String) (log : List Request) :
    (CreateNodegroups.check uc name log).2
      = log ++ [Request.DescribeNodegroup (CreateNodegroups.describeInput uc name)] := by
  unfold CreateNodegroups.check
  simp only
  split
  · rfl
  · split
    · rfl
    · split <;> rfl

theorem CreateNodegroups_stateAfter (uc : Cluster) (name : String) (k : Nat)
    (log : List Request) :
    stateAfter (CreateNodegroups.check uc name) k log
      = log ++ List.replicate k
          (Request.DescribeNodegroup (CreateNodegroups.describeInput uc name)) := by
  induction k with
  | zero => simp [stateAfter]
  | succ k ih =>
    rw [stateAfter_succ, ih, CreateNodegroups_check_log, List.replicate_succ',
      List.append_assoc]

theorem stack_check_log (stackName : String) (ctl : api.ClusterProvider)
    (st : Option cfn.DescribeStacksOutput × List Request) :
    (createVPCAndRole.check stackName ctl st).2.2
      = st.2 ++ [Request.DescribeStacks { StackName := stackName }] := by
  obtain ⟨x, log⟩ := st
  unfold createVPCAndRole.check
  simp only
  split
  · rfl
  · split
    · rfl
    · split <;> rfl

theorem stack_check_indep (stackName : String) (ctl : api.ClusterProvider)
    (x y : Option cfn.DescribeStacksOutput) (log : List Request) :
    createVPCAndRole.check stackName ctl (x, log)
      = createVPCAndRole.check stackName ctl (y, log) := rfl

theorem stack_stateAfter (stackName : String) (ctl : api.ClusterProvider) (k : Nat)
    (st : Option cfn.DescribeStacksOutput × List Request) :
    (stateAfter (createVPCAndRole.check stackName ctl) k st).2
      = st.2 ++ List.replicate k (Request.DescribeStacks { StackName := stackName }) := by
  induction k with
  | zero => simp [stateAfter]
  | succ k ih =>
    rw [stateAfter_succ, stack_check_log, ih, List.replicate_succ', List.append_assoc]

/-- The handle is not changed by `createCluster`, and its requests are one
create request followed by describe requests only. -/
theorem createCluster_log (env : Env) (uc : Cluster) (log : List Request) :
    (createCluster env uc log).2.1 = uc ∧
    ∃ n, (createCluster env uc log).2.2
      = log ++ Request.CreateCluster (createCluster.input uc)
          :: List.replicate n (Request.DescribeCluster { Name := uc.ClusterName }) := by
  unfold createCluster
  simp only
  cases uc.Ctl.EKS.CreateCluster log (createCluster.input uc) with
  | error e => exact ⟨by simp [Expect], 0, by simp [Expect]⟩
  | ok u =>
    simp only [Expect]
    obtain ⟨n, -, -, hstate, -⟩ := Eventually_trace (createCluster.check uc) "ACTIVE"
      (env.polls (log ++ [Request.CreateCluster (createCluster.input uc)])
        timeoutDuration (Second * 30))
      (log ++ [Request.CreateCluster (createCluster.input uc)])
    rw [createCluster_stateAfter] at hstate
    constructor
    · split <;> rfl
    · refine ⟨n + 1, ?_⟩
      split
      · rename_i f log2 heq
        rw [heq] at hstate
        simp only at hstate
        simp [hstate]
      · rename_i u2 log2 heq
        rw [heq] at hstate
        simp only at hstate
        simp [hstate]

/-- The requests of `createVPCAndRole` when the template is read: one create
request followed by describe requests only. -/
theorem createVPCAndRole_log_ok (env : Env) (stackName : String)
    (ctl : api.ClusterProvider) (log : List Request) (templateBody : String)
    (hread : env.ReadFile "../../utilities/unowned/cf-template.yaml" = .ok templateBody) :
    ∃ n, (createVPCAndRole env stackName ctl log).2
        = log ++ Request.CreateStack (createVPCAndRole.input stackName templateBody)
            :: List.replicate n (Request.DescribeStacks { StackName := stackName }) := by
  unfold createVPCAndRole
  rw [hread]
  simp only [Expect]
  cases ctl.CloudFormation.CreateStack log
      (createVPCAndRole.input stackName templateBody) with
  | error e => exact ⟨0, by simp⟩
  | ok u =>
    simp only
    obtain ⟨n, -, -, hstate, -⟩ := Eventually_trace
      (createVPCAndRole.check stackName ctl) cfn.StackStatusCreateComplete
      (env.polls
        (log ++ [Request.CreateStack (createVPCAndRole.input stackName templateBody)])
        (Minute * 10) (Second * 15))
      (none, log ++ [Request.CreateStack (createVPCAndRole.input stackName templateBody)])
    have h2 := congrArg Prod.snd hstate
    rw [stack_stateAfter] at h2
    refine ⟨n + 1, ?_⟩
    split
    · rename_i f x log2 heq
      rw [heq] at h2
      simp only at h2
      simp [h2]
    · rename_i u2 out log2 heq
      rw [heq] at h2
      simp only at h2
      simp [h2]

/-- No request is issued by `createVPCAndRole` when the template cannot be
read. -/
theorem createVPCAndRole_log_err (env : Env) (stackName : String)
    (ctl : api.ClusterProvider) (log : List Request) (e : Error)
    (hread : env.ReadFile "../../utilities/unowned/cf-template.yaml" = .error e) :
    createVPCAndRole env stackName ctl log = (.error (Failure.unexpectedError e), log) := by
  unfold createVPCAndRole
  rw [hread]
  simp [Expect]

theorem createCluster_handle (env : Env) (uc uc1 : Cluster) (log log2 : List Request)
    (r : Except Failure Unit) (h : createCluster env uc log = (r, uc1, log2)) :
    uc1 = uc := by
  have h1 := (createCluster_log env uc log).1
  rw [h] at h1
  exact h1

/-- The handle returned by `NewCluster` carries the names derived from the
configuration. -/
theorem NewCluster_ok_names (env : Env) (cfg : api.ClusterConfig)
    (log0 log1 : List Request) (uc : Cluster)
    (hbuilt : NewCluster env cfg log0 = (.ok uc, log1)) :
    uc.ClusterStackName = "eksctl-" ++ cfg.Metadata.Name ∧
    uc.ClusterName = cfg.Metadata.Name ∧ uc.Cfg = cfg := by
  unfold NewCluster at hbuilt
  simp only at hbuilt
  split at hbuilt
  · simp at hbuilt
  · split at hbuilt
    · simp at hbuilt
    · rename_i pub priv cr nr l1 hnet
      split at hbuilt
      · simp at hbuilt
      · rename_i u uc1 l2 hcc
        have h1 := createCluster_handle _ _ _ _ _ _ hcc
        simp only [Prod.mk.injEq, Except.ok.injEq] at hbuilt
        rw [← hbuilt.1, h1]
        exact ⟨rfl, rfl, rfl⟩

/-! ## The requests built by the stages -/

/-- C3 (as the code runs): the create-stack request that `createVPCAndRole`
submits carries the stack name, the template body, and the capabilities list
left by the second call of `SetCapabilities`, which holds CAPABILITY_NAMED_IAM
only; CAPABILITY_IAM is not in it. -/
theorem createVPCAndRole_request_capabilities (env : Env) (stackName : String)
    (ctl : api.ClusterProvider) (log : List Request) (templateBody : String)
    (hread : env.ReadFile "../../utilities/unowned/cf-template.yaml" = .ok templateBody) :
    ∃ input rest,
      (createVPCAndRole env stackName ctl log).2 = log ++ Request.CreateStack input :: rest ∧
      input.StackName = stackName ∧
      input.TemplateBody = some templateBody ∧
      input.Capabilities = ["CAPABILITY_NAMED_IAM"] ∧
      "CAPABILITY_IAM" ∉ input.Capabilities := by
  obtain ⟨n, hn⟩ := createVPCAndRole_log_ok env stackName ctl log templateBody hread
  refine ⟨createVPCAndRole.input stackName templateBody, _, hn, rfl, rfl, rfl, ?_⟩
  show "CAPABILITY_IAM" ∉ ["CAPABILITY_NAMED_IAM"]
  decide

/-- Witness of C3: for the stack "eksctl-test" the submitted capabilities are
CAPABILITY_NAMED_IAM alone. -/
theorem createVPCAndRole_request_capabilities_witness :
    (Sample.env Sample.provider).ReadFile "../../utilities/unowned/cf-template.yaml"
        = .ok "Resources: ..." ∧
    ∃ input rest,
      (createVPCAndRole (Sample.env Sample.provider) "eksctl-test" Sample.provider []).2
        = [] ++ Request.CreateStack input :: rest ∧
      input.StackName = "eksctl-test" ∧
      input.TemplateBody = some "Resources: ..." ∧
      input.Capabilities = ["CAPABILITY_NAMED_IAM"] ∧
      "CAPABILITY_IAM" ∉ input.Capabilities :=
  ⟨rfl, createVPCAndRole_request_capabilities (Sample.env Sample.provider) "eksctl-test"
    Sample.provider [] "Resources: ..." rfl⟩

/-- C6: the create-cluster request of `createCluster` lists the public subnets
followed by the private subnets, names the cluster role of the handle and the
configured version, and is followed by describe requests only; with both subnet
lists empty the request is issued all the same, with an empty subnet list. -/
theorem createCluster_request (env : Env) (uc : Cluster) (log : List Request) :
    (∃ n, (createCluster env uc log).2.2
      = log ++ Request.CreateCluster
            { Name := uc.ClusterName
              ResourcesVpcConfig := { SubnetIds := uc.PublicSubnets ++ uc.PrivateSubnets }
              RoleArn := uc.ClusterRoleARN
              Version := uc.Cfg.Metadata.Version }
          :: List.replicate n (Request.DescribeCluster { Name := uc.ClusterName })) ∧
    (∃ n, (createCluster env { uc with PublicSubnets := [], PrivateSubnets := [] } log).2.2
      = log ++ Request.CreateCluster
            { Name := uc.ClusterName
              ResourcesVpcConfig := { SubnetIds := [] }
              RoleArn := uc.ClusterRoleARN
              Version := uc.Cfg.Metadata.Version }
          :: List.replicate n (Request.DescribeCluster { Name := uc.ClusterName })) :=
  ⟨(createCluster_log env uc log).2,
    (createCluster_log env { uc with PublicSubnets := [], PrivateSubnets := [] } log).2⟩

/-- C7: for a handle built by `NewCluster` from a configuration named `n`,
`DeleteStack` issues one request, the deletion of the stack "eksctl-" followed
by `n`; the handle is unchanged and the outcome is the answer of the provider
to that request. -/
theorem DeleteStack_single_request (env : Env) (cfg : api.ClusterConfig)
    (log0 log1 log : List Request) (uc : Cluster)
    (hbuilt : NewCluster env cfg log0 = (.ok uc, log1)) :
    (DeleteStack uc log).2.2
      = log ++ [Request.DeleteStack { StackName := "eksctl-" ++ cfg.Metadata.Name }] ∧
    (DeleteStack uc log).2.1 = uc ∧
    (DeleteStack uc log).1
      = Expect (uc.Ctl.CloudFormation.DeleteStack log
          { StackName := "eksctl-" ++ cfg.Metadata.Name }) := by
  obtain ⟨hname, -, -⟩ := NewCluster_ok_names env cfg log0 log1 uc hbuilt
  unfold DeleteStack
  simp only [hname]
  cases uc.Ctl.CloudFormation.DeleteStack log
      { StackName := "eksctl-" ++ cfg.Metadata.Name } with
  | error e => exact ⟨rfl, rfl, rfl⟩
  | ok u => exact ⟨rfl, rfl, rfl⟩

/-- Witness of C7: the handle built from the configuration named "test" deletes
the stack "eksctl-test" with one request. -/
theorem DeleteStack_single_request_witness :
    (DeleteStack Sample.cluster []).2.2
      = [] ++ [Request.DeleteStack { StackName := "eksctl-" ++ Sample.cfg.Metadata.Name }] ∧
    (DeleteStack Sample.cluster []).2.1 = Sample.cluster ∧
    (DeleteStack Sample.cluster []).1
      = Expect (Sample.cluster.Ctl.CloudFormation.DeleteStack []
          { StackName := "eksctl-" ++ Sample.cfg.Metadata.Name }) :=
  DeleteStack_single_request (Sample.env Sample.provider) Sample.cfg []
    (NewCluster (Sample.env Sample.provider) Sample.cfg []).2 [] Sample.cluster (by rfl)

/-! ## The worker-group stage -/

theorem create_all_ok (uc : Cluster) : ∀ (names : List String) (log : List Request),
    (∀ j n, names[j]? = some n →
      uc.Ctl.EKS.CreateNodegroup
        (log ++ (names.take j).map
          (fun m => Request.CreateNodegroup (CreateNodegroups.input uc m)))
        (CreateNodegroups.input uc n) = .ok ()) →
    CreateNodegroups.create uc names log
      = (.ok (), log ++ names.map
          (fun m => Request.CreateNodegroup (CreateNodegroups.input uc m))) := by
  intro names
  induction names with
  | nil => intro log _; simp [CreateNodegroups.create]
  | cons name names ih =>
    intro log h
    have h0 := h 0 name (by simp)
    simp only [List.take_zero, List.map_nil, List.append_nil] at h0
    rw [CreateNodegroups.create]
    simp only [h0, Expect]
    rw [ih]
    · simp
    · intro j n hj
      have := h (j + 1) n (by simpa using hj)
      simpa using this

theorem create_fails_at (uc : Cluster) :
    ∀ (names : List String) (log : List Request) (i : Nat) (name : String) (e : Error),
    names[i]? = some name →
    (∀ j n, j < i → names[j]? = some n →
      uc.Ctl.EKS.CreateNodegroup
        (log ++ (names.take j).map
          (fun m => Request.CreateNodegroup (CreateNodegroups.input uc m)))
        (CreateNodegroups.input uc n) = .ok ()) →
    uc.Ctl.EKS.CreateNodegroup
        (log ++ (names.take i).map
          (fun m => Request.CreateNodegroup (CreateNodegroups.input uc m)))
        (CreateNodegroups.input uc name) = .error e →
    CreateNodegroups.create uc names log
      = (.error (Failure.unexpectedError e), log ++ (names.take (i + 1)).map
          (fun m => Request.CreateNodegroup (CreateNodegroups.input uc m))) := by
  intro names
  induction names with
  | nil => intro log i name e hname; simp at hname
  | cons first names ih =>
    intro log i name e hname hok hfail
    cases i with
    | zero =>
      simp only [List.getElem?_cons_zero, Option.some.injEq] at hname
      subst hname
      simp only [List.take_zero, List.map_nil, List.append_nil] at hfail
      rw [CreateNodegroups.create]
      simp [hfail, Expect]
    | succ i =>
      have h0 := hok 0 first (by omega) (by simp)
      simp only [List.take_zero, List.map_nil, List.append_nil] at h0
      rw [CreateNodegroups.create]
      simp only [h0, Expect]
      rw [ih _ i name e (by simpa using hname)]
      · simp
      · intro j n hj hn
        have := hok (j + 1) n (by omega) (by simpa using hn)
        simpa using this
      · simpa using hfail

theorem nodegroup_check_ok (uc : Cluster) (name : String) (log : List Request)
    (st : String) (h : (CreateNodegroups.check uc name log).1 = .ok st) :
    uc.Ctl.EKS.DescribeNodegroup log (CreateNodegroups.describeInput uc name)
      = .ok { Nodegroup := some { Status := some st } } := by
  unfold CreateNodegroups.check at h
  simp only at h
  cases hr : uc.Ctl.EKS.DescribeNodegroup log (CreateNodegroups.describeInput uc name) with
  | error e => rw [hr] at h; simp [Expect] at h
  | ok out =>
    rw [hr] at h
    simp only [Expect] at h
    obtain ⟨ng⟩ := out
    cases ng with
    | none => simp at h
    | some g =>
      obtain ⟨status⟩ := g
      cases status with
      | none => simp at h
      | some s =>
        simp only [Except.ok.injEq] at h
        rw [h]

theorem describes_nil_counts (uc : Cluster) (names : List String) :
    CreateNodegroups.describes uc names [] = [] := by
  cases names <;> rfl

theorem nodegroup_check_of_answer (uc : Cluster) (name : String) (log : List Request)
    (st : String)
    (h : uc.Ctl.EKS.DescribeNodegroup log (CreateNodegroups.describeInput uc name)
      = .ok { Nodegroup := some { Status := some st } }) :
    (CreateNodegroups.check uc name log).1 = .ok st := by
  unfold CreateNodegroups.check
  simp only [h, Expect]

/-- The polling phase of `CreateNodegroups`, group by group: the first group is
always checked; a group is checked at least once and at most as often as its
own deadline allows; every check before the last one of a group saw a status
other than "ACTIVE"; the last check of a group saw "ACTIVE" exactly when the
run went on to the next group or, after the last group, ended well; and the
run ends well exactly when every group has been checked and seen "ACTIVE". -/
theorem await_trace (env : Env) (uc : Cluster) :
    ∀ (names : List String) (log : List Request), ∃ counts : List Nat,
      counts.length ≤ names.length ∧
      (names ≠ [] → counts ≠ []) ∧
      (∀ c ∈ counts, 1 ≤ c) ∧
      (CreateNodegroups.await env uc names log).2
        = log ++ CreateNodegroups.describes uc names counts ∧
      ((CreateNodegroups.await env uc names log).1 = .ok () ↔
        counts.length = names.length ∧
        ∀ j n c, names[j]? = some n → counts[j]? = some c →
          uc.Ctl.EKS.DescribeNodegroup
            (log ++ CreateNodegroups.describes uc (names.take j) (counts.take j)
              ++ List.replicate (c - 1)
                (Request.DescribeNodegroup (CreateNodegroups.describeInput uc n)))
            (CreateNodegroups.describeInput uc n)
            = .ok { Nodegroup := some { Status := some "ACTIVE" } }) ∧
      (∀ j n c, names[j]? = some n → counts[j]? = some c →
        c ≤ env.polls
            (log ++ CreateNodegroups.describes uc (names.take j) (counts.take j))
            timeoutDuration (Second * 30) + 1 ∧
        (∀ k, k + 1 < c → ∃ st, st ≠ "ACTIVE" ∧
          uc.Ctl.EKS.DescribeNodegroup
            (log ++ CreateNodegroups.describes uc (names.take j) (counts.take j)
              ++ List.replicate k
                (Request.DescribeNodegroup (CreateNodegroups.describeInput uc n)))
            (CreateNodegroups.describeInput uc n)
            = .ok { Nodegroup := some { Status := some st } }) ∧
        (uc.Ctl.EKS.DescribeNodegroup
            (log ++ CreateNodegroups.describes uc (names.take j) (counts.take j)
              ++ List.replicate (c - 1)
                (Request.DescribeNodegroup (CreateNodegroups.describeInput uc n)))
            (CreateNodegroups.describeInput uc n)
            = .ok { Nodegroup := some { Status := some "ACTIVE" } } ↔
          (j + 1 < counts.length ∨
            (j + 1 = names.length ∧
              (CreateNodegroups.await env uc names log).1 = .ok ())))) := by
  intro names
  induction names with
  | nil =>
    intro log
    refine ⟨[], by simp, by simp, by simp,
      by simp [CreateNodegroups.await, CreateNodegroups.describes], ?_, by simp⟩
    simp [CreateNodegroups.await]
  | cons name names ih =>
    intro log
    obtain ⟨n, hle, hmiss, hstate, hres⟩ := Eventually_trace
      (CreateNodegroups.check uc name) "ACTIVE"
      (env.polls log timeoutDuration (Second * 30)) log
    simp only [CreateNodegroups_stateAfter] at hmiss hstate hres
    have hmissAns : ∀ k, k < n → ∃ st, st ≠ "ACTIVE" ∧
        uc.Ctl.EKS.DescribeNodegroup
          (log ++ List.replicate k
            (Request.DescribeNodegroup (CreateNodegroups.describeInput uc name)))
          (CreateNodegroups.describeInput uc name)
          = .ok { Nodegroup := some { Status := some st } } := by
      intro k hk
      obtain ⟨st, hst, hne⟩ := hmiss k hk
      exact ⟨st, hne, nodegroup_check_ok uc name _ st hst⟩
    cases hE : Eventually (CreateNodegroups.check uc name)
        (env.polls log timeoutDuration (Second * 30)) "ACTIVE" log with
    | mk r log1 =>
      rw [hE] at hstate hres
      simp only at hstate hres
      subst hstate
      cases r with
      | error f =>
        have hrun : CreateNodegroups.await env uc (name :: names) log
            = (.error f, log ++ List.replicate (n + 1)
                (Request.DescribeNodegroup (CreateNodegroups.describeInput uc name))) := by
          rw [CreateNodegroups.await, hE]
        have hnot : uc.Ctl.EKS.DescribeNodegroup
            (log ++ List.replicate n
              (Request.DescribeNodegroup (CreateNodegroups.describeInput uc name)))
            (CreateNodegroups.describeInput uc name)
            ≠ .ok { Nodegroup := some { Status := some "ACTIVE" } } := by
          intro h
          rw [nodegroup_check_of_answer uc name _ "ACTIVE" h] at hres
          simp at hres
        rw [hrun]
        refine ⟨[n + 1], by simp, by simp, by simp, ?_, ?_, ?_⟩
        · simp [CreateNodegroups.describes, describes_nil_counts]
        · constructor
          · intro h
            simp at h
          · rintro ⟨-, h⟩
            have := h 0 name (n + 1) (by simp) (by simp)
            simp only [List.take_zero, CreateNodegroups.describes, List.append_nil,
              Nat.add_sub_cancel] at this
            exact absurd this hnot
        · intro j m c hm hc
          cases j with
          | succ j => simp at hc
          | zero =>
            simp only [List.getElem?_cons_zero, Option.some.injEq] at hm hc
            subst hm hc
            simp only [List.take_zero, CreateNodegroups.describes, List.append_nil,
              Nat.add_sub_cancel]
            refine ⟨by omega, fun k hk => hmissAns k (by omega), ?_⟩
            constructor
            · intro h
              exact absurd h hnot
            · rintro (h | ⟨-, h⟩)
              · simp at h
              · simp at h
      | ok u =>
        have hrun : CreateNodegroups.await env uc (name :: names) log
            = CreateNodegroups.await env uc names (log ++ List.replicate (n + 1)
                (Request.DescribeNodegroup (CreateNodegroups.describeInput uc name))) := by
          rw [CreateNodegroups.await, hE]
        have hactive : (CreateNodegroups.check uc name
            (log ++ List.replicate n
              (Request.DescribeNodegroup (CreateNodegroups.describeInput uc name)))).1
            = .ok "ACTIVE" := by
          cases hc : (CreateNodegroups.check uc name
            (log ++ List.replicate n
              (Request.DescribeNodegroup (CreateNodegroups.describeInput uc name)))).1 with
          | error f => rw [hc] at hres; simp at hres
          | ok st =>
            rw [hc] at hres
            simp only at hres
            by_cases hst : st = "ACTIVE"
            · rw [hst]
            · simp [hst] at hres
        have hans := nodegroup_check_ok uc name _ "ACTIVE" hactive
        obtain ⟨counts, hlen, hne, hpos, hlog, hiff, hblk⟩ := ih
          (log ++ List.replicate (n + 1)
            (Request.DescribeNodegroup (CreateNodegroups.describeInput uc name)))
        have hhist : ∀ (j : Nat) (tail : List Request),
            log ++ CreateNodegroups.describes uc ((name :: names).take (j + 1))
                (((n + 1) :: counts).take (j + 1)) ++ tail
              = log ++ List.replicate (n + 1)
                  (Request.DescribeNodegroup (CreateNodegroups.describeInput uc name))
                ++ CreateNodegroups.describes uc (names.take j) (counts.take j)
                ++ tail := by
          intro j tail
          simp [CreateNodegroups.describes, List.append_assoc]
        have hhist0 : ∀ (j : Nat),
            log ++ CreateNodegroups.describes uc ((name :: names).take (j + 1))
                (((n + 1) :: counts).take (j + 1))
              = log ++ List.replicate (n + 1)
                  (Request.DescribeNodegroup (CreateNodegroups.describeInput uc name))
                ++ CreateNodegroups.describes uc (names.take j) (counts.take j) := by
          intro j
          simp [CreateNodegroups.describes, List.append_assoc]
        rw [hrun]
        refine ⟨(n + 1) :: counts, by simpa using hlen, by simp, ?_, ?_, ?_, ?_⟩
        · intro c hc
          rcases List.mem_cons.1 hc with h | h
          · omega
          · exact hpos c h
        · rw [hlog]
          simp [CreateNodegroups.describes]
        · constructor
          · intro h
            obtain ⟨h1, h2⟩ := hiff.1 h
            refine ⟨by simp [h1], ?_⟩
            intro j m c hm hc
            cases j with
            | zero =>
              simp only [List.getElem?_cons_zero, Option.some.injEq] at hm hc
              subst hm hc
              simpa [CreateNodegroups.describes] using hans
            | succ j =>
              rw [hhist]
              exact h2 j m c (by simpa using hm) (by simpa using hc)
          · rintro ⟨h1, h2⟩
            refine hiff.2 ⟨by simpa using h1, ?_⟩
            intro j m c hm hc
            have := h2 (j + 1) m c (by simpa using hm) (by simpa using hc)
            rw [hhist] at this
            exact this
        · intro j m c hm hc
          cases j with
          | zero =>
            simp only [List.getElem?_cons_zero, Option.some.injEq] at hm hc
            subst hm hc
            simp only [List.take_zero, CreateNodegroups.describes, List.append_nil,
              Nat.add_sub_cancel]
            refine ⟨by omega, fun k hk => hmissAns k (by omega), ?_⟩
            constructor
            · intro _
              cases names with
              | nil =>
                right
                exact ⟨by simp, by simp [CreateNodegroups.await]⟩
              | cons m2 ms =>
                left
                have := hne (by simp)
                have hpos2 : 0 < counts.length := List.length_pos.2 this
                simp only [List.length_cons]
                omega
            · intro _
              exact hans
          | succ j =>
            obtain ⟨hb, hm2, hlast⟩ := hblk j m c (by simpa using hm) (by simpa using hc)
            refine ⟨?_, ?_, ?_⟩
            · rw [hhist0]
              exact hb
            · intro k hk
              rw [hhist]
              exact hm2 k hk
            · rw [hhist, hlast]
              simp only [List.length_cons]
              constructor
              · rintro (h | ⟨h, h3⟩)
                · left; omega
                · right; exact ⟨by omega, h3⟩
              · rintro (h | ⟨h, h3⟩)
                · left; omega
                · right; exact ⟨by omega, h3⟩

/-- When the provider answers "ACTIVE" to every describe request, the polling
phase checks every group once, in list order, and ends well. -/
theorem await_all_active (env : Env) (uc : Cluster)
    (hactive : ∀ (l : List Request) (n : String),
      uc.Ctl.EKS.DescribeNodegroup l (CreateNodegroups.describeInput uc n)
        = .ok { Nodegroup := some { Status := some "ACTIVE" } }) :
    ∀ (names : List String) (log : List Request),
      CreateNodegroups.await env uc names log
        = (.ok (), log ++ names.map
            (fun m => Request.DescribeNodegroup (CreateNodegroups.describeInput uc m))) := by
  intro names
  induction names with
  | nil => intro log; simp [CreateNodegroups.await]
  | cons name names ih =>
    intro log
    have hhit := Eventually_hit (CreateNodegroups.check uc name) "ACTIVE" 0
      (env.polls log timeoutDuration (Second * 30)) log (Nat.zero_le _)
      (fun k hk => absurd hk (Nat.not_lt_zero k))
      (nodegroup_check_of_answer uc name _ "ACTIVE" (hactive _ name))
    rw [CreateNodegroups_stateAfter] at hhit
    rw [CreateNodegroups.await, hhit]
    simp only
    rw [ih]
    simp

/-- C4: when the create requests for the names before index `i` succeed and the
one for `names[i]` fails with `e`, the create requests for `names[0..i]` are
issued in order and nothing else: no create request for a later name and no
describe request; the operation fails with `e`. -/
theorem CreateNodegroups_fail_fast (env : Env) (uc : Cluster) (names : List String)
    (log : List Request) (i : Nat) (name : String) (e : Error)
    (hname : names[i]? = some name)
    (hok : ∀ j n, j < i → names[j]? = some n →
      uc.Ctl.EKS.CreateNodegroup
        (log ++ (names.take j).map
          (fun m => Request.CreateNodegroup (CreateNodegroups.input uc m)))
        (CreateNodegroups.input uc n) = .ok ())
    (hfail : uc.Ctl.EKS.CreateNodegroup
        (log ++ (names.take i).map
          (fun m => Request.CreateNodegroup (CreateNodegroups.input uc m)))
        (CreateNodegroups.input uc name) = .error e) :
    CreateNodegroups env uc names log
      = (.error (Failure.unexpectedError e), log ++ (names.take (i + 1)).map
          (fun m => Request.CreateNodegroup (CreateNodegroups.input uc m))) ∧
    (∀ q ∈ (names.take (i + 1)).map
        (fun m => Request.CreateNodegroup (CreateNodegroups.input uc m)),
      q.isDescribeNodegroup = false) := by
  constructor
  · unfold CreateNodegroups
    rw [create_fails_at uc names log i name e hname hok hfail]
  · intro q hq
    simp only [List.mem_map] at hq
    obtain ⟨m, -, rfl⟩ := hq
    rfl

/-- Witness of C4: with the names "ng-1", "ng-2" and the creation of "ng-2"
rejected, two create requests are issued and no describe request. -/
theorem CreateNodegroups_fail_fast_witness :
    CreateNodegroups (Sample.env Sample.provider) Sample.cluster ["ng-1", "ng-2"] []
      = (.error (Failure.unexpectedError { Message := "ResourceInUse" }),
          [] ++ (["ng-1", "ng-2"].take (1 + 1)).map
            (fun m => Request.CreateNodegroup (CreateNodegroups.input Sample.cluster m))) ∧
    (∀ q ∈ (["ng-1", "ng-2"].take (1 + 1)).map
        (fun m => Request.CreateNodegroup (CreateNodegroups.input Sample.cluster m)),
      q.isDescribeNodegroup = false) :=
  CreateNodegroups_fail_fast (Sample.env Sample.provider) Sample.cluster
    ["ng-1", "ng-2"] [] 1 "ng-2" { Message := "ResourceInUse" } (by rfl)
    (fun j n hj hn => by
      have hj0 : j = 0 := by omega
      subst hj0
      simp only [List.getElem?_cons_zero, Option.some.injEq] at hn
      subst hn
      rfl)
    (by rfl)

/-- C9: when all create requests succeed, one create request per name is issued
in list order, for the cluster and the node role of the handle, on the public
subnets only, with sizes 1, 1, 1; the describe requests all come after them;
the groups are polled one at a time in list order, `counts[j]` times for
`names[j]`: the first group is always polled, each polled group at least once
and within its own deadline, every check but the last of a group sees a status
other than "ACTIVE", and the last check of a group has seen "ACTIVE" exactly
when the run goes on to the next group or, after the last group, ends well;
the run ends well exactly when every group has been polled and seen "ACTIVE";
with a provider that answers "ACTIVE" at once, every group is checked once and
the run ends well. -/
theorem CreateNodegroups_success_order (env : Env) (uc : Cluster)
    (names : List String) (log : List Request)
    (hcreate : ∀ j n, names[j]? = some n →
      uc.Ctl.EKS.CreateNodegroup
        (log ++ (names.take j).map
          (fun m => Request.CreateNodegroup (CreateNodegroups.input uc m)))
        (CreateNodegroups.input uc n) = .ok ()) :
    ∃ counts : List Nat,
      counts.length ≤ names.length ∧
      (names ≠ [] → counts ≠ []) ∧
      (∀ c ∈ counts, 1 ≤ c) ∧
      (CreateNodegroups env uc names log).2
        = log ++ names.map (fun m => Request.CreateNodegroup
              { NodegroupName := m
                ClusterName := uc.ClusterName
                NodeRole := uc.NodeRoleARN
                Subnets := uc.PublicSubnets
                ScalingConfig := { MaxSize := 1, DesiredSize := 1, MinSize := 1 } })
            ++ CreateNodegroups.describes uc names counts ∧
      ((CreateNodegroups env uc names log).1 = .ok () ↔
        counts.length = names.length ∧
        ∀ j n c, names[j]? = some n → counts[j]? = some c →
          uc.Ctl.EKS.DescribeNodegroup
            (log ++ names.map
                (fun m => Request.CreateNodegroup (CreateNodegroups.input uc m))
              ++ CreateNodegroups.describes uc (names.take j) (counts.take j)
              ++ List.replicate (c - 1)
                (Request.DescribeNodegroup
                  { ClusterName := uc.ClusterName, NodegroupName := n }))
            { ClusterName := uc.ClusterName, NodegroupName := n }
            = .ok { Nodegroup := some { Status := some "ACTIVE" } }) ∧
      (∀ j n c, names[j]? = some n → counts[j]? = some c →
        c ≤ env.polls
            (log ++ names.map
                (fun m => Request.CreateNodegroup (CreateNodegroups.input uc m))
              ++ CreateNodegroups.describes uc (names.take j) (counts.take j))
            timeoutDuration (Second * 30) + 1 ∧
        (∀ k, k + 1 < c → ∃ st, st ≠ "ACTIVE" ∧
          uc.Ctl.EKS.DescribeNodegroup
            (log ++ names.map
                (fun m => Request.CreateNodegroup (CreateNodegroups.input uc m))
              ++ CreateNodegroups.describes uc (names.take j) (counts.take j)
              ++ List.replicate k
                (Request.DescribeNodegroup
                  { ClusterName := uc.ClusterName, NodegroupName := n }))
            { ClusterName := uc.ClusterName, NodegroupName := n }
            = .ok { Nodegroup := some { Status := some st } }) ∧
        (uc.Ctl.EKS.DescribeNodegroup
            (log ++ names.map
                (fun m => Request.CreateNodegroup (CreateNodegroups.input uc m))
              ++ CreateNodegroups.describes uc (names.take j) (counts.take j)
              ++ List.replicate (c - 1)
                (Request.DescribeNodegroup
                  { ClusterName := uc.ClusterName, NodegroupName := n }))
            { ClusterName := uc.ClusterName, NodegroupName := n }
            = .ok { Nodegroup := some { Status := some "ACTIVE" } } ↔
          (j + 1 < counts.length ∨
            (j + 1 = names.length ∧
              (CreateNodegroups env uc names log).1 = .ok ())))) ∧
      ((∀ (l : List Request) (n : String),
          uc.Ctl.EKS.DescribeNodegroup l
              { ClusterName := uc.ClusterName, NodegroupName := n }
            = .ok { Nodegroup := some { Status := some "ACTIVE" } }) →
        CreateNodegroups env uc names log
          = (.ok (), log ++ names.map (fun m => Request.CreateNodegroup
                { NodegroupName := m
                  ClusterName := uc.ClusterName
                  NodeRole := uc.NodeRoleARN
                  Subnets := uc.PublicSubnets
                  ScalingConfig := { MaxSize := 1, DesiredSize := 1, MinSize := 1 } })
              ++ names.map (fun m => Request.DescribeNodegroup
                { ClusterName := uc.ClusterName, NodegroupName := m }))) := by
  have hrun : CreateNodegroups env uc names log
      = CreateNodegroups.await env uc names
          (log ++ names.map
            (fun m => Request.CreateNodegroup (CreateNodegroups.input uc m))) := by
    unfold CreateNodegroups
    rw [create_all_ok uc names log hcreate]
  obtain ⟨counts, hlen, hne, hpos, hlog, hiff, hblk⟩ := await_trace env uc names
    (log ++ names.map (fun m => Request.CreateNodegroup (CreateNodegroups.input uc m)))
  rw [hrun]
  refine ⟨counts, hlen, hne, hpos, hlog, hiff, hblk, ?_⟩
  intro hall
  exact await_all_active env uc hall names _

/-- Witness of C9: the groups "ng-a" and "ng-b" on the sample provider, which
accepts both and answers "ACTIVE" at once: two create requests, then one check
of "ng-a", then one check of "ng-b", and the run ends well. -/
theorem CreateNodegroups_success_order_witness :
    CreateNodegroups (Sample.env Sample.provider) Sample.cluster ["ng-a", "ng-b"] []
      = (.ok (),
          [ Request.CreateNodegroup
              { NodegroupName := "ng-a", ClusterName := "test", NodeRole := "r2"
                Subnets := ["a", "b", "c"]
                ScalingConfig := { MaxSize := 1, DesiredSize := 1, MinSize := 1 } },
            Request.CreateNodegroup
              { NodegroupName := "ng-b", ClusterName := "test", NodeRole := "r2"
                Subnets := ["a", "b", "c"]
                ScalingConfig := { MaxSize := 1, DesiredSize := 1, MinSize := 1 } },
            Request.DescribeNodegroup { ClusterName := "test", NodegroupName := "ng-a" },
            Request.DescribeNodegroup { ClusterName := "test", NodegroupName := "ng-b" } ]) := by
  obtain ⟨counts, -, -, -, -, -, -, hall⟩ :=
    CreateNodegroups_success_order (Sample.env Sample.provider) Sample.cluster
      ["ng-a", "ng-b"] []
      (fun j n hn => by
        have hn2 : n ≠ "ng-2" := by
          rcases j with _ | _ | j
          · simp only [List.getElem?_cons_zero, Option.some.injEq] at hn
            subst hn; decide
          · simp only [List.getElem?_cons_succ, List.getElem?_cons_zero,
              Option.some.injEq] at hn
            subst hn; decide
          · simp at hn
        show (if n = "ng-2" then (Except.error { Message := "ResourceInUse" } :
            Except Error Unit) else Except.ok ()) = Except.ok ()
        rw [if_neg hn2])
  exact hall (fun _ _ => rfl)

/-! ## The order of the stages -/

/-- C5: with the provider constructed, the requests of the network stage are
one create-stack request followed by describe-stacks requests (or none at all);
when that stage fails, `NewCluster` fails with the same failure and issues
nothing further, so no create-cluster or describe-cluster request; when it
succeeds, the create-cluster request comes after all stack requests and is
followed by describe-cluster requests only. -/
theorem NewCluster_stage_order (env : Env) (cfg : api.ClusterConfig)
    (log : List Request) (clusterProvider : eks.ClusterProvider)
    (hnew : env.New { Region := cfg.Metadata.Region } cfg = .ok clusterProvider) :
    (∃ stackReqs,
      (createVPCAndRole env ("eksctl-" ++ cfg.Metadata.Name)
          clusterProvider.Provider log).2 = log ++ stackReqs ∧
      (stackReqs = [] ∨ ∃ templateBody n,
        stackReqs = Request.CreateStack
            (createVPCAndRole.input ("eksctl-" ++ cfg.Metadata.Name) templateBody)
          :: List.replicate n
              (Request.DescribeStacks { StackName := "eksctl-" ++ cfg.Metadata.Name }))) ∧
    (∀ f, (createVPCAndRole env ("eksctl-" ++ cfg.Metadata.Name)
          clusterProvider.Provider log).1 = .error f →
      NewCluster env cfg log
        = (.error f, (createVPCAndRole env ("eksctl-" ++ cfg.Metadata.Name)
            clusterProvider.Provider log).2)) ∧
    (∀ outs, (createVPCAndRole env ("eksctl-" ++ cfg.Metadata.Name)
          clusterProvider.Provider log).1 = .ok outs →
      ∃ input n, (NewCluster env cfg log).2
        = (createVPCAndRole env ("eksctl-" ++ cfg.Metadata.Name)
            clusterProvider.Provider log).2
          ++ Request.CreateCluster input
            :: List.replicate n (Request.DescribeCluster { Name := cfg.Metadata.Name })) := by
  refine ⟨?_, ?_, ?_⟩
  · cases hread : env.ReadFile "../../utilities/unowned/cf-template.yaml" with
    | error e =>
      refine ⟨[], ?_, Or.inl rfl⟩
      rw [createVPCAndRole_log_err env _ _ log e hread]
      simp
    | ok body =>
      obtain ⟨n, hn⟩ := createVPCAndRole_log_ok env ("eksctl-" ++ cfg.Metadata.Name)
        clusterProvider.Provider log body hread
      exact ⟨_, hn, Or.inr ⟨body, n, rfl⟩⟩
  · intro f hf
    cases hnet : createVPCAndRole env ("eksctl-" ++ cfg.Metadata.Name)
        clusterProvider.Provider log with
    | mk r l1 =>
      rw [hnet] at hf
      simp only at hf
      subst hf
      unfold NewCluster
      simp only [hnew, Expect, hnet]
  · intro outs hout
    cases hnet : createVPCAndRole env ("eksctl-" ++ cfg.Metadata.Name)
        clusterProvider.Provider log with
    | mk r l1 =>
      rw [hnet] at hout
      simp only at hout
      subst hout
      obtain ⟨pub, priv, cr, nr⟩ := outs
      unfold NewCluster
      simp only [hnew, Expect, hnet]
      have key : ∀ uc : Cluster, uc.ClusterName = cfg.Metadata.Name →
          ∃ input n,
            ((match createCluster env uc l1 with
              | (.error f, _, log2) => (Except.error f, log2)
              | (.ok _, uc1, log2) => (Except.ok uc1, log2) :
                Except Failure Cluster × List Request)).2
              = l1 ++ Request.CreateCluster input
                :: List.replicate n (Request.DescribeCluster { Name := cfg.Metadata.Name }) := by
        intro uc hname
        obtain ⟨n, hn⟩ := (createCluster_log env uc l1).2
        rw [hname] at hn
        refine ⟨createCluster.input uc, n, ?_⟩
        split
        · rename_i f uc1 l2 hcc
          rw [hcc] at hn
          exact hn
        · rename_i u uc1 l2 hcc
          rw [hcc] at hn
          exact hn
      exact key _ rfl

/-- Witness of C5: the sample provider and the configuration named "test". -/
theorem NewCluster_stage_order_witness :
    (Sample.env Sample.provider).New { Region := Sample.cfg.Metadata.Region } Sample.cfg
      = .ok { Provider := Sample.provider } ∧
    (NewCluster (Sample.env Sample.provider) Sample.cfg []).2
      = [ Request.CreateStack
            { StackName := "eksctl-test"
              TemplateBody := some "Resources: ..."
              Capabilities := ["CAPABILITY_NAMED_IAM"] },
          Request.DescribeStacks { StackName := "eksctl-test" },
          Request.CreateCluster
            { Name := "test"
              ResourcesVpcConfig := { SubnetIds := ["a", "b", "c", "d", "e"] }
              RoleArn := "r1"
              Version := "1.21" },
          Request.DescribeCluster { Name := "test" } ] ∧
    ∃ input n, (NewCluster (Sample.env Sample.provider) Sample.cfg []).2
        = (createVPCAndRole (Sample.env Sample.provider)
            ("eksctl-" ++ Sample.cfg.Metadata.Name) Sample.provider []).2
          ++ Request.CreateCluster input
            :: List.replicate n
                (Request.DescribeCluster { Name := Sample.cfg.Metadata.Name }) :=
  ⟨rfl, by decide,
    (NewCluster_stage_order (Sample.env Sample.provider) Sample.cfg []
      { Provider := Sample.provider } rfl).2.2
      (["a", "b", "c"], ["d", "e"], "r1", "r2") (by rfl)⟩

/-! ## A describe response without stacks -/

theorem stack_check_zero (stackName : String) (ctl : api.ClusterProvider)
    (x : Option cfn.DescribeStacksOutput) (l : List Request)
    (h : ctl.CloudFormation.DescribeStacks l { StackName := stackName }
      = .ok { Stacks := [] }) :
    (createVPCAndRole.check stackName ctl (x, l)).1
      = .error (Failure.indexOutOfRange 0 0) := by
  unfold createVPCAndRole.check
  simp only [h, Expect]

theorem replicate_split {α : Type} (a : α) (m : Nat) (pre rest : List α)
    (h : List.replicate m a = pre ++ a :: rest) :
    pre = List.replicate pre.length a ∧ pre.length < m := by
  have hlen : m = pre.length + (rest.length + 1) := by
    have := congrArg List.length h
    simpa using this
  refine ⟨?_, by omega⟩
  rw [List.eq_replicate_iff]
  refine ⟨rfl, fun b hb => ?_⟩
  have hmem : b ∈ List.replicate m a := by
    rw [h]
    exact List.mem_append_left _ hb
  exact (List.mem_replicate.1 hmem).2

/-- C2 (as the code runs): when a describe-stacks call issued by
`createVPCAndRole` succeeds with an empty list of stacks, the stage indexes
element 0 of that list and is aborted by the index-out-of-range panic, with
that call as its last request. -/
theorem createVPCAndRole_zero_stacks (env : Env) (stackName : String)
    (ctl : api.ClusterProvider) (log pre rest : List Request)
    (hissued : (createVPCAndRole env stackName ctl log).2
      = log ++ pre ++ Request.DescribeStacks { StackName := stackName } :: rest)
    (hzero : ctl.CloudFormation.DescribeStacks (log ++ pre) { StackName := stackName }
      = .ok { Stacks := [] }) :
    createVPCAndRole env stackName ctl log
      = (.error (Failure.indexOutOfRange 0 0),
          log ++ pre ++ [Request.DescribeStacks { StackName := stackName }]) := by
  cases hread : env.ReadFile "../../utilities/unowned/cf-template.yaml" with
  | error e =>
    rw [createVPCAndRole_log_err env stackName ctl log e hread] at hissued
    have := congrArg List.length hissued
    simp at this
  | ok body =>
    unfold createVPCAndRole at hissued ⊢
    rw [hread] at hissued ⊢
    simp only [Expect] at hissued ⊢
    cases hcs : ctl.CloudFormation.CreateStack log (createVPCAndRole.input stackName body) with
    | error e =>
      rw [hcs] at hissued
      simp only [List.append_assoc, List.append_cancel_left_eq] at hissued
      cases pre with
      | nil => simp at hissued
      | cons p ps =>
        have := congrArg List.length hissued
        simp at this
    | ok u =>
      rw [hcs] at hissued
      simp only at hissued ⊢
      obtain ⟨n, -, hmiss, hstate, hres⟩ := Eventually_trace
        (createVPCAndRole.check stackName ctl) cfn.StackStatusCreateComplete
        (env.polls (log ++ [Request.CreateStack (createVPCAndRole.input stackName body)])
          (Minute * 10) (Second * 15))
        (none, log ++ [Request.CreateStack (createVPCAndRole.input stackName body)])
      have hlog2 := congrArg Prod.snd hstate
      rw [stack_stateAfter] at hlog2
      simp only at hlog2
      cases hE : Eventually (createVPCAndRole.check stackName ctl)
          (env.polls (log ++ [Request.CreateStack (createVPCAndRole.input stackName body)])
            (Minute * 10) (Second * 15)) cfn.StackStatusCreateComplete
          (none, log ++ [Request.CreateStack (createVPCAndRole.input stackName body)]) with
      | mk r st =>
        obtain ⟨out, log2⟩ := st
        rw [hE] at hissued hlog2 hres
        simp only at hlog2 hres
        have hfinal : log2 = log ++ pre
            ++ Request.DescribeStacks { StackName := stackName } :: rest := by
          cases r with
          | error f => simpa using hissued
          | ok v => simpa using hissued
        rw [hlog2] at hfinal
        simp only [List.append_assoc, List.append_cancel_left_eq] at hfinal
        cases pre with
        | nil => simp at hfinal
        | cons p ps =>
          simp only [List.singleton_append, List.cons_append, List.cons.injEq] at hfinal
          obtain ⟨hp, hrep⟩ := hfinal
          obtain ⟨hps, hlt⟩ := replicate_split _ _ _ _ hrep
          have hstk : ∀ k, (stateAfter (createVPCAndRole.check stackName ctl) k
              (none, log ++ [Request.CreateStack (createVPCAndRole.input stackName body)]))
              = ((stateAfter (createVPCAndRole.check stackName ctl) k
                  (none, log ++ [Request.CreateStack
                    (createVPCAndRole.input stackName body)])).1,
                log ++ [Request.CreateStack (createVPCAndRole.input stackName body)]
                  ++ List.replicate k (Request.DescribeStacks { StackName := stackName })) := by
            intro k
            apply Prod.ext
            · rfl
            · rw [stack_stateAfter]
          have hhist : log ++ [Request.CreateStack (createVPCAndRole.input stackName body)]
              ++ List.replicate ps.length (Request.DescribeStacks { StackName := stackName })
              = log ++ p :: ps := by
            rw [← hp, ← hps]
            simp
          have hchk : (createVPCAndRole.check stackName ctl
              (stateAfter (createVPCAndRole.check stackName ctl) ps.length
                (none, log ++ [Request.CreateStack
                  (createVPCAndRole.input stackName body)]))).1
              = .error (Failure.indexOutOfRange 0 0) := by
            rw [hstk ps.length, hhist]
            exact stack_check_zero stackName ctl _ _ hzero
          have hn : ps.length = n := by
            by_contra hne
            obtain ⟨s1, hs1, -⟩ := hmiss ps.length (by omega)
            rw [hchk] at hs1
            simp at hs1
          rw [hn] at hchk
          rw [hchk] at hres
          simp only at hres
          subst hres
          simp only [hlog2, Prod.mk.injEq, true_and]
          rw [← hn, List.replicate_succ', ← List.append_assoc, hhist]

/-- Counterexample to C2: the provider answers the first describe-stacks call
with an empty list of stacks; the stage does index element 0 of it and is
aborted by the index-out-of-range panic, not by a not-found error. -/
theorem createVPCAndRole_empty_stacks_panics :
    Sample.emptyProvider.CloudFormation.DescribeStacks
        [Request.CreateStack
          { StackName := "eksctl-test"
            TemplateBody := some "Resources: ..."
            Capabilities := ["CAPABILITY_NAMED_IAM"] }]
        { StackName := "eksctl-test" }
      = .ok { Stacks := [] } ∧
    createVPCAndRole (Sample.env Sample.emptyProvider) "eksctl-test"
        Sample.emptyProvider []
      = (.error (Failure.indexOutOfRange 0 0),
          [ Request.CreateStack
              { StackName := "eksctl-test"
                TemplateBody := some "Resources: ..."
                Capabilities := ["CAPABILITY_NAMED_IAM"] },
            Request.DescribeStacks { StackName := "eksctl-test" } ]) :=
  ⟨rfl, by rfl⟩

/-- Witness of C2 as amended: the empty answer to the first describe-stacks
call of the stack "eksctl-test". -/
theorem createVPCAndRole_zero_stacks_witness :
    createVPCAndRole (Sample.env Sample.emptyProvider) "eksctl-test"
        Sample.emptyProvider []
      = (.error (Failure.indexOutOfRange 0 0),
          [] ++ [Request.CreateStack (createVPCAndRole.input "eksctl-test" "Resources: ...")]
            ++ [Request.DescribeStacks { StackName := "eksctl-test" }]) :=
  createVPCAndRole_zero_stacks (Sample.env Sample.emptyProvider) "eksctl-test"
    Sample.emptyProvider []
    [Request.CreateStack (createVPCAndRole.input "eksctl-test" "Resources: ...")] []
    (by rfl) (by rfl)

end Unowned
